import Mathlib

/-!
Verification development for the ArcHeli agent-execution system.

The repository ships the HTTP boundary (`app/main.py`, `app/api/routes.py`),
the configuration (`app/config.py`) and the persistence schema
(`app/db/schema.py`).  The core components those files call — the Lifecycle
Manager, Governor, Model Router, Orchestrator (OODA loop), Skill Manager and
Goal Tracker — are referenced by the boundary code but their modules are not
part of the shipped source tree; where a claim depends on them, the
corresponding definition is modelled from the specification text and marked
as such in its doc comment.  Boundary definitions are translated directly
from the Python source.
-/

namespace Archeli

/-! ## Task lifecycle (Lifecycle Manager)

Modelled from the spec: the module `app/runtime/lifecycle.py` is imported by
`app/api/routes.py` but is absent from the source tree.  The state machine
and operations below follow spec sections 4.1 and 3, with the status vocabulary
taken from the comment in `app/db/schema.py` on `AHTask.status`
(`created|assigned|executing|verifying|closed|failed`). -/

/-- Task statuses, from the `AHTask.status` column comment in
`app/db/schema.py`. -/
inductive TaskStatus
  | created
  | assigned
  | executing
  | verifying
  | closed
  | failed
  deriving DecidableEq, Repr

/-- A status is terminal when it is `closed` or `failed`. -/
def TaskStatus.isTerminal : TaskStatus → Bool
  | .closed => true
  | .failed => true
  | _ => false

/-- Position of a status along the lifecycle chain, used to express that
transitions move strictly forward. -/
def TaskStatus.rank : TaskStatus → Nat
  | .created => 0
  | .assigned => 1
  | .executing => 2
  | .verifying => 3
  | .closed => 4
  | .failed => 4

/-- Modelled from the spec: the legal single-step transitions of the Task
state machine, `created → assigned → executing → verifying → {closed|failed}`,
with `failed` also reachable from any non-terminal status. -/
def validTransition : TaskStatus → TaskStatus → Bool
  | .created, .assigned => true
  | .assigned, .executing => true
  | .executing, .verifying => true
  | .verifying, .closed => true
  | .created, .failed => true
  | .assigned, .failed => true
  | .executing, .failed => true
  | .verifying, .failed => true
  | _, _ => false

/-- The Task record, translated from `AHTask` in `app/db/schema.py`.
Timestamps are abstract ticks (`Nat`); free-form JSON payloads are kept as
opaque strings, as the spec requires the core to treat them. -/
structure Task where
  id : Nat
  session_id : Option Nat
  title : String
  skill_name : Option String
  task_type : String
  status : TaskStatus
  input_data : String
  output_data : String
  governor_ok : Bool
  model_used : Option String
  tokens_used : Nat
  error_msg : Option String
  created_at : Nat
  updated_at : Nat
  closed_at : Option Nat
  deriving DecidableEq, Repr

/-- Errors of the Lifecycle Manager, from the spec's error taxonomy (§7). -/
inductive LifecycleError
  | InvalidTransition
  | TaskClosed
  deriving DecidableEq, Repr

/-- Modelled from the spec: `createTask(sessionId?, title, taskType, inputData)`
creates a Task with initial status `created` (§4.1); per the schema defaults,
`closed_at` is null and the governor flag false. -/
def createTask (id : Nat) (session_id : Option Nat) (title : String)
    (task_type : String) (input_data : String) (now : Nat) : Task :=
  { id := id
    session_id := session_id
    title := title
    skill_name := none
    task_type := task_type
    status := .created
    input_data := input_data
    output_data := "{}"
    governor_ok := false
    model_used := none
    tokens_used := 0
    error_msg := none
    created_at := now
    updated_at := now
    closed_at := none }

/-- Modelled from the spec: `advance(taskId, nextStatus, fields)` enforces the
state machine; it fails with `TaskClosed` on a task already in `closed` or
`failed` and with `InvalidTransition` when the target is not reachable from
the current status (§4.1).  Reaching a terminal status sets `closed_at`,
in the same transition, as §3's invariant `closed_at set iff
status∈{closed,failed}` and §4.1's `closeTask`/`failTask` prescribe. -/
def advance (t : Task) (next : TaskStatus) (now : Nat) :
    Except LifecycleError Task :=
  if t.status.isTerminal then .error .TaskClosed
  else if validTransition t.status next then
    .ok { t with
          status := next
          updated_at := now
          closed_at := if next.isTerminal then some now else t.closed_at }
  else .error .InvalidTransition

/-- `advance` as a total update: on failure the task is returned unchanged
together with the error, making the frame condition explicit. -/
def advanceTask (t : Task) (next : TaskStatus) (now : Nat) :
    Task × Option LifecycleError :=
  match advance t next now with
  | .ok t' => (t', none)
  | .error e => (t, some e)

/-- Modelled from the spec: `closeTask(taskId, outputData, tokensUsed,
modelUsed)` sets status=closed and `closed_at`=now (§4.1). -/
def closeTask (t : Task) (output_data : String) (tokens_used : Nat)
    (model_used : String) (now : Nat) : Except LifecycleError Task :=
  (advance t .closed now).map fun t' =>
    { t' with
      output_data := output_data
      tokens_used := tokens_used
      model_used := some model_used }

/-- Modelled from the spec: `failTask(taskId, errorMsg)` sets status=failed
and `closed_at`=now (§4.1). -/
def failTask (t : Task) (error_msg : String) (now : Nat) :
    Except LifecycleError Task :=
  (advance t .failed now).map fun t' => { t' with error_msg := some error_msg }

/-- The claim's reading of the chain: the five forward edges of
`created → assigned → executing → verifying → {closed|failed}`, plus `failed`
reachable directly from any non-terminal status. -/
def chainStep (s s' : TaskStatus) : Bool :=
  (s == .created && s' == .assigned) ||
  (s == .assigned && s' == .executing) ||
  (s == .executing && s' == .verifying) ||
  (s == .verifying && (s' == .closed || s' == .failed)) ||
  (!s.isTerminal && s' == .failed)

/-! ## Governor

Modelled from the spec: the governor module is imported by the loop but is
absent from the source tree.  Definitions follow spec §4.2, with the mode
vocabulary and default thresholds from `Settings` in `app/config.py`
(`governor_mode`, `risk_block_threshold`, `risk_warn_threshold`). -/

/-- Governor modes, from the comment on `Settings.governor_mode` in
`app/config.py`: `soft_block | hard_block | audit_only | off`. -/
inductive GovMode
  | off
  | audit_only
  | soft_block
  | hard_block
  deriving DecidableEq, Repr

/-- Decision outcomes, from the `AHAuditLog.decision` column comment in
`app/db/schema.py`: `APPROVED|BLOCKED|WARNED`. -/
inductive Outcome
  | APPROVED
  | BLOCKED
  | WARNED
  deriving DecidableEq, Repr

/-- Modelled from the spec: one scoring rule, contributing a bounded point
value when it matches the action description and context (§4.2). -/
structure GovRule where
  keyword : String
  points : Nat
  deriving DecidableEq, Repr

/-- Governor configuration: mode, thresholds (defaults 90/70 in
`app/config.py`) and the rule table. -/
structure GovConfig where
  mode : GovMode
  risk_block_threshold : Nat
  risk_warn_threshold : Nat
  rules : List GovRule
  deriving DecidableEq, Repr

/-- Whether a character list starts with a given key. -/
def startsWithList : List Char → List Char → Bool
  | _, [] => true
  | [], _ :: _ => false
  | c :: s, k :: ks => c == k && startsWithList s ks

/-- Whether a key occurs as a contiguous run somewhere in a character
list. -/
def subOccurs (s key : List Char) : Bool :=
  match s with
  | [] => startsWithList [] key
  | c :: rest => startsWithList (c :: rest) key || subOccurs rest key

/-- Substring test on strings, via their character lists. -/
def strHasSub (s sub : String) : Bool := subOccurs s.data sub.data

/-- Modelled from the spec: a rule matches when its keyword occurs in the
combined action description and context text (§4.2 "weighted rule matches
against the action description and context"). -/
def ruleMatches (r : GovRule) (action context : String) : Bool :=
  strHasSub (action ++ " " ++ context) r.keyword

/-- Modelled from the spec: the risk score is the sum of the point values of
the matching rules, clamped to `[0,100]` (§4.2). -/
def riskScore (cfg : GovConfig) (action context : String) : Nat :=
  min 100 (((cfg.rules.filter (fun r => ruleMatches r action context)).map
    GovRule.points).sum)

/-- A governor decision: outcome, risk score and reason (§4.2). -/
structure Decision where
  outcome : Outcome
  risk_score : Nat
  reason : String
  deriving DecidableEq, Repr

/-- Modelled from the spec: `evaluate(action, context)` scores the action and
maps the score through the configured mode and thresholds (§4.2): in `off`
mode the outcome is APPROVED regardless of score; otherwise a score at or
above the block threshold yields BLOCKED, at or above the warn threshold (and
below block) WARNED, else APPROVED. -/
def evaluate (cfg : GovConfig) (action context : String) : Decision :=
  let score := riskScore cfg action context
  let out : Outcome :=
    match cfg.mode with
    | .off => .APPROVED
    | _ =>
      if cfg.risk_block_threshold ≤ score then .BLOCKED
      else if cfg.risk_warn_threshold ≤ score then .WARNED
      else .APPROVED
  { outcome := out
    risk_score := score
    reason := "score " ++ toString score }

/-- One audit log entry, translated from `AHAuditLog` in `app/db/schema.py`. -/
structure AuditLogEntry where
  action : String
  decision : Outcome
  risk_score : Nat
  reason : String
  context : String
  deriving DecidableEq, Repr

/-- Modelled from the spec: every `evaluate` call appends one `AuditLogEntry`
to the append-only audit log; the log is the only state the governor touches
and is never read by `evaluate` (§4.2). -/
def evaluateWithLog (cfg : GovConfig) (log : List AuditLogEntry)
    (action context : String) : Decision × List AuditLogEntry :=
  let d := evaluate cfg action context
  (d, log ++ [{ action := action
                decision := d.outcome
                risk_score := d.risk_score
                reason := d.reason
                context := context }])

/-! ## Model Router

Modelled from the spec: `app/utils/model_router.py` is imported by
`app/main.py` and `app/api/routes.py` but is absent from the source tree.
Definitions follow spec §4.3. -/

/-- A configured provider, identified by name as in `app/config.py`. -/
structure Provider where
  name : String
  deriving DecidableEq, Repr

/-- Result of a successful model call, from the spec's `ModelResult` contract
(§4.3). -/
structure ModelResult where
  output : String
  provider : String
  tokens_used : Nat
  deriving DecidableEq, Repr

/-- Router errors (§7): all candidates exhausted. -/
inductive RouterError
  | NoProviderAvailable
  deriving DecidableEq, Repr

/-- Modelled from the spec: dispatch attempts providers in ranked order; any
per-provider failure advances to the next candidate; exhausting all candidates
raises `NoProviderAvailable` (§4.3).  The first component records the
providers attempted, in order. -/
def dispatch (attempt : Provider → Except String ModelResult) :
    List Provider → List Provider × Except RouterError ModelResult
  | [] => ([], .error .NoProviderAvailable)
  | p :: rest =>
    match attempt p with
    | .ok r => ([p], .ok r)
    | .error _ =>
      let (tried, res) := dispatch attempt rest
      (p :: tried, res)

/-! ## Orchestrator (OODA loop)

Modelled from the spec: `app/loop/main_loop.py` is imported by
`app/api/routes.py` but is absent from the source tree.  `run` follows the
Observe → Orient → Decide → Act → Learn sequence of spec §4.4, with the
external collaborators (Skill Manager, Model Router as seen by the loop)
supplied as an environment, and records which collaborators were invoked. -/

/-- Collaborator calls the loop can make during one cycle. -/
inductive Event
  | governorCall
  | routerCall
  | skillCall
  | memoryWrite
  | goalUpdate
  deriving DecidableEq, Repr

/-- The loop's input, translated from `LoopInput` as constructed in
`agent_run` in `app/api/routes.py`. -/
structure LoopInput where
  command : String
  source : String
  session_id : Option Nat
  goal_id : Option Nat
  context : String
  skill_hint : Option String
  task_type : String
  budget : String
  deriving DecidableEq, Repr

/-- The cycle result, translated from `AgentRunResp` in
`app/api/routes.py` (fields read off `main_loop.run`'s result there). -/
structure CycleResult where
  success : Bool
  task_id : Option Nat
  skill_used : Option String
  model_used : Option String
  output : Option String
  tokens_used : Nat
  elapsed_s : Nat
  governor_approved : Bool
  error : Option String
  memory_hits : List String
  deriving DecidableEq, Repr

/-- The external collaborators of one cycle (spec §2, §6): skill resolution
and invocation via the Skill Manager, and the Model Router's dispatch as the
loop sees it. -/
structure Env where
  resolveSkill : Option String → String → Option String
  skillNeedsModel : String → Bool
  dispatchCall : String → Except String ModelResult
  invokeSkill : String → String → Except String String

/-- Modelled from the spec: the governor action description is built from the
resolved skill, the inputs and the context (§4.4 stage 3). -/
def mkAction (skill : String) (inp : LoopInput) : String :=
  "invoke " ++ skill ++ ": " ++ inp.command

/-- Total version of `advanceTask` used inside the loop, where every
transition taken is legal: returns the updated task. -/
def advanceTotal (t : Task) (next : TaskStatus) (now : Nat) : Task :=
  (advanceTask t next now).1

/-- Total version of `failTask` used inside the loop (the loop only fails
non-terminal tasks, where `failTask` succeeds). -/
def failTaskTotal (t : Task) (msg : String) (now : Nat) : Task :=
  match failTask t msg now with
  | .ok t' => t'
  | .error _ => t

/-- Total version of `closeTask` used inside the loop. -/
def closeTaskTotal (t : Task) (output_data : String) (tokens_used : Nat)
    (model_used : Option String) (now : Nat) : Task :=
  match advance t .closed now with
  | .ok t' =>
    { t' with
      output_data := output_data
      tokens_used := tokens_used
      model_used := model_used }
  | .error _ => t

/-- Modelled from the spec: one full OODA cycle (§4.4).  Observe creates the
Task; Orient resolves the skill hint (an unresolved skill fails the Task with
`SkillNotFound`, per end-to-end scenario 3); Decide calls the Governor and, if
the decision is BLOCKED in a blocking mode, fails the Task and returns
`success=false, governorApproved=false` with no model/skill invocation; Act
advances to `executing`, optionally calls the Model Router, then the Skill
Manager, and any error there fails the Task; Learn writes memory, links the
goal, and closes the Task.  Returns the cycle result, the final task record,
and the ordered list of collaborator calls made. -/
def run (env : Env) (cfg : GovConfig) (inp : LoopInput) (tid now : Nat) :
    CycleResult × Task × List Event :=
  let t0 := createTask tid inp.session_id inp.command inp.task_type
    inp.context now
  match env.resolveSkill inp.skill_hint inp.command with
  | none =>
    let tf := failTaskTotal t0 ("SkillNotFound: " ++ inp.command) now
    ({ success := false, task_id := some tid, skill_used := none
       model_used := none, output := none, tokens_used := 0, elapsed_s := 0
       governor_approved := false
       error := some ("SkillNotFound: " ++ inp.command), memory_hits := [] },
     tf, [])
  | some skill =>
    let t1 := { advanceTotal t0 .assigned now with skill_name := some skill }
    let d := evaluate cfg (mkAction skill inp) inp.context
    let blocked :=
      (cfg.mode == .hard_block || cfg.mode == .soft_block) &&
        d.outcome == .BLOCKED
    if blocked then
      let tf := failTaskTotal t1 ("governor blocked: " ++ d.reason) now
      ({ success := false, task_id := some tid, skill_used := some skill
         model_used := none, output := none, tokens_used := 0, elapsed_s := 0
         governor_approved := false
         error := some ("governor blocked: " ++ d.reason), memory_hits := [] },
       tf, [.governorCall])
    else
      let t2 := { advanceTotal t1 .executing now with governor_ok := true }
      let modelStep : Except String (Option ModelResult) × List Event :=
        if env.skillNeedsModel skill then
          match env.dispatchCall inp.command with
          | .ok r => (.ok (some r), [.routerCall])
          | .error e => (.error e, [.routerCall])
        else (.ok none, [])
      match modelStep with
      | (.error e, evs) =>
        let tf := failTaskTotal t2 e now
        ({ success := false, task_id := some tid, skill_used := some skill
           model_used := none, output := none, tokens_used := 0
           elapsed_s := 0, governor_approved := true, error := some e
           memory_hits := [] }, tf, .governorCall :: evs)
      | (.ok mres, evs) =>
        match env.invokeSkill skill inp.context with
        | .error e =>
          let tf := failTaskTotal t2 e now
          ({ success := false, task_id := some tid, skill_used := some skill
             model_used := mres.map ModelResult.provider
             output := none, tokens_used := 0, elapsed_s := 0
             governor_approved := true, error := some e
             memory_hits := [] }, tf, .governorCall :: (evs ++ [.skillCall]))
        | .ok out =>
          let t3 := advanceTotal t2 .verifying now
          let tokens := match mres with
            | some r => r.tokens_used
            | none => 0
          let mname := mres.map ModelResult.provider
          let tc := closeTaskTotal t3 out tokens mname now
          ({ success := true, task_id := some tid, skill_used := some skill
             model_used := mname, output := some out, tokens_used := tokens
             elapsed_s := 0, governor_approved := true, error := none
             memory_hits := [] }, tc,
           .governorCall :: (evs ++ [.skillCall, .memoryWrite] ++
             (if inp.goal_id.isSome then [.goalUpdate] else [])))

/-! ## API boundary (`app/api/routes.py`, `app/main.py`)

These definitions are translated from the Python source.  FastAPI's
`HTTPException(status, detail)` is modelled as an error value carrying the
status code and detail string; a handler returning `.ok` models a 200
response. -/

/-- An HTTP error response: status code and detail. -/
abbrev HttpError := Nat × String

/-- Python exceptions crossing the handlers in `app/api/routes.py`:
`SkillNotFound`, an `HTTPException`, or any other exception.  `HTTPException`
subclasses `Exception`, so a blanket `except Exception` catches it too. -/
inductive AppExc
  | skillNotFound (msg : String)
  | http (status : Nat) (detail : String)
  | other (msg : String)
  deriving DecidableEq, Repr

/-- Python `str(e)` on the exceptions above; Starlette's
`HTTPException.__str__` renders status and detail. -/
def strExc : AppExc → String
  | .skillNotFound m => m
  | .http s d => toString s ++ ": " ++ d
  | .other m => m

/-- `invoke_skill` from `app/api/routes.py`: calls
`skill_manager.invoke(name, inputs)`; `except SkillNotFound` re-raises as
`HTTPException(404, str(e))`, `except Exception` as
`HTTPException(500, str(e))`. -/
def invoke_skill (invoke : String → String → Except AppExc String)
    (name inputs : String) : Except HttpError String :=
  match invoke name inputs with
  | .ok v => .ok v
  | .error (.skillNotFound m) => .error (404, m)
  | .error e => .error (500, strExc e)

/-- `agent_run` from `app/api/routes.py`: calls `main_loop.run(LoopInput(...))`
inside a try block whose only handler is `except Exception as e:
raise HTTPException(500, str(e))` — every exception, of any kind, surfaces
as a 500. -/
def agent_run (loop : LoopInput → Except AppExc CycleResult)
    (inp : LoopInput) : Except HttpError CycleResult :=
  match loop inp with
  | .ok r => .ok r
  | .error e => .error (500, strExc e)

/-- `get_task` from `app/api/routes.py`: `lifecycle.tasks.get(task_id)`;
`if not t: raise HTTPException(404, "Task not found")`, else return `t`. -/
def get_task (store : Nat → Option Task) (task_id : Nat) :
    Except HttpError Task :=
  match store task_id with
  | none => .error (404, "Task not found")
  | some t => .ok t

/-- The request headers the auth middleware in `app/main.py` reads.
`none` models an absent header. -/
structure Headers where
  x_api_key : Option String
  authorization : Option String
  deriving DecidableEq, Repr

/-- Python's `str.removeprefix`: drops the leading run when present,
otherwise returns the string unchanged. -/
def stripLeading (s pre : String) : String :=
  if startsWithList s.data pre.data then ⟨s.data.drop pre.data.length⟩ else s

/-- Token extraction in `auth_middleware` (`app/main.py` line 111):
`request.headers.get("x-api-key") or
request.headers.get("authorization", "").removeprefix("Bearer ")`.
Python's `or` falls through on a falsy left operand, so an x-api-key header
that is absent OR present with an empty value both fall through to the
authorization header. -/
def extractToken (h : Headers) : String :=
  match h.x_api_key with
  | some s =>
    if s = "" then stripLeading (h.authorization.getD "") "Bearer " else s
  | none => stripLeading (h.authorization.getD "") "Bearer "

/-- The paths `auth_middleware` exempts from the check (`app/main.py`
lines 108-109). -/
def exemptPaths : List String :=
  ["/", "/healthz", "/v1/health", "/docs", "/redoc", "/openapi.json"]

/-- `auth_middleware` from `app/main.py`: returns `true` when the request is
passed to the handler and `false` when it is rejected with a 401.  With an
empty `settings.api_key` auth is disabled; exempt paths skip the check;
otherwise the request passes iff the extracted token is `settings.api_key`
or `settings.admin_token`. -/
def authAllows (api_key admin_token path : String) (h : Headers) : Bool :=
  if api_key == "" then true
  else if exemptPaths.contains path then true
  else
    let token := extractToken h
    token == api_key || token == admin_token

/-- The claim's own description of token extraction, stated for comparison
with `extractToken`: the x-api-key header *if present*, otherwise the
authorization header with a leading "Bearer " removed, otherwise the empty
string. -/
def claimToken (h : Headers) : String :=
  match h.x_api_key with
  | some s => s
  | none => stripLeading (h.authorization.getD "") "Bearer "

/-- Which cron-system call `add_cron` makes. -/
inductive CronAction
  | addCron
  | addInterval
  deriving DecidableEq, Repr

/-- The `CronAddReq` body model from `app/api/routes.py`. -/
structure CronAddReq where
  name : String
  skill_name : String
  cron_expr : Option String
  interval_s : Option Int
  input_data : String
  governor_required : Bool
  deriving DecidableEq, Repr

/-- Python truthiness of an optional string: `None` and `""` are falsy. -/
def truthyStr : Option String → Bool
  | some s => s != ""
  | none => false

/-- Python truthiness of an optional integer: `None` and `0` are falsy. -/
def truthyInt : Option Int → Bool
  | some n => n != 0
  | none => false

/-- The body of the try block in `add_cron` (`app/api/routes.py`
lines 256-263): `if req.cron_expr: add_cron(...)`,
`elif req.interval_s: add_interval(...)`, else
`raise HTTPException(400, "cron_expr or interval_s required")`. -/
def add_cron_body (req : CronAddReq) : Except AppExc CronAction :=
  if truthyStr req.cron_expr then .ok .addCron
  else if truthyInt req.interval_s then .ok .addInterval
  else .error (.http 400 "cron_expr or interval_s required")

/-- The whole `add_cron` handler: the try body above wrapped by
`except Exception as e: raise HTTPException(500, str(e))`, which also catches
the `HTTPException(400)` raised inside the try block. -/
def add_cron_route (req : CronAddReq) : Except HttpError CronAction :=
  match add_cron_body req with
  | .ok a => .ok a
  | .error e => .error (500, strExc e)

/-! ## Goal tracker (for the `delete_goal` route)

The `delete_goal` handler in `app/api/routes.py` is source; the Goal Tracker
it calls (`app/loop/goal_tracker.py`) is absent from the source tree, so
`abandon` and `list_all` are modelled from the spec. -/

/-- Goal statuses, from the `AHGoal.status` column comment in
`app/db/schema.py`: `active|paused|completed|abandoned`. -/
inductive GoalStatus
  | active
  | paused
  | completed
  | abandoned
  deriving DecidableEq, Repr

/-- The Goal record, translated from `AHGoal` in `app/db/schema.py`
(progress kept as an exact rational in `[0,1]`). -/
structure Goal where
  id : Nat
  title : String
  description : String
  status : GoalStatus
  progress : Rat
  priority : Int
  context : String
  deriving DecidableEq, Repr

/-- Modelled from the spec: `abandon(id)` is a status change to `abandoned`
(§6 Goal Tracker contract, §3 Goal invariants); no other field changes and no
record is removed. -/
def abandon (gs : List Goal) (gid : Nat) : List Goal :=
  gs.map fun g => if g.id = gid then { g with status := .abandoned } else g

/-- Modelled from the spec: `list_all()` (backing `GET /v1/goals` without a
status filter) returns every stored goal. -/
def list_all (gs : List Goal) : List Goal := gs

/-- `delete_goal` from `app/api/routes.py`: calls
`goal_tracker.abandon(goal_id)` and returns
`{"status": "abandoned", "goal_id": goal_id}` — it never deletes the row. -/
def delete_goal (gs : List Goal) (gid : Nat) : List Goal × (String × Nat) :=
  (abandon gs gid, ("abandoned", gid))

/-! ## Theorems -/

/-- The spec's invariant `closed_at set iff status∈{closed,failed}` (§3),
as a predicate on one task record. -/
def closedAtInv (t : Task) : Prop :=
  t.closed_at.isSome = t.status.isTerminal

/-- Sample task in status `created`, as `createTask` produces it. -/
def sampleTask : Task := createTask 1 none "demo" "general" "payload" 0

/-- Sample task in status `assigned`. -/
def sampleAssigned : Task := { sampleTask with status := .assigned }

/-- Sample task in status `verifying`. -/
def sampleVerifying : Task := { sampleTask with status := .verifying }

/-- Sample task in terminal status `closed`. -/
def sampleClosed : Task :=
  { sampleTask with status := .closed, closed_at := some 1 }

/-- On every pair of statuses, the modelled transition table coincides with
the chain the claim describes. -/
theorem validTransition_eq_chainStep (s s' : TaskStatus) :
    validTransition s s' = chainStep s s' := by
  cases s <;> cases s' <;> decide

/-- Every legal transition moves strictly forward along the chain. -/
theorem validTransition_rank_lt (s s' : TaskStatus)
    (h : validTransition s s' = true) : s.rank < s'.rank := by
  cases s <;> cases s' <;> simp_all [validTransition, TaskStatus.rank]

/-- C1: Task status only moves along
`created → assigned → executing → verifying → {closed|failed}` (with `failed`
also reachable directly from any non-terminal status); an advance to a status
not reachable from the current one fails with `InvalidTransition`, and an
advance on a task already `closed` or `failed` fails with `TaskClosed` — in
both failure cases the task is returned unchanged. -/
theorem C1_task_state_machine (t : Task) (next : TaskStatus) (now : Nat) :
    (t.status.isTerminal = true →
      advanceTask t next now = (t, some .TaskClosed)) ∧
    (t.status.isTerminal = false → chainStep t.status next = false →
      advanceTask t next now = (t, some .InvalidTransition)) ∧
    ((advanceTask t next now).2 = none →
      chainStep t.status next = true ∧
      (advanceTask t next now).1.status = next ∧
      t.status.rank < next.rank) := by
  refine ⟨?_, ?_, ?_⟩
  · intro hterm
    simp [advanceTask, advance, hterm]
  · intro hterm hchain
    simp [advanceTask, advance, hterm,
      validTransition_eq_chainStep, hchain]
  · intro hok
    by_cases hterm : t.status.isTerminal = true
    · simp [advanceTask, advance, hterm] at hok
    · by_cases hv : validTransition t.status next = true
      · refine ⟨(validTransition_eq_chainStep t.status next) ▸ hv, ?_,
          validTransition_rank_lt t.status next hv⟩
        simp [advanceTask, advance, hterm, hv]
      · simp [advanceTask, advance, hterm, hv] at hok

/-- C1 witness: a closed task rejects any advance with `TaskClosed`, a
freshly created task rejects the skipped-stage advance `created → executing`
with `InvalidTransition` (unchanged in both cases), and the legal advance
`created → assigned` succeeds along the chain. -/
theorem C1_task_state_machine_witness :
    advanceTask sampleClosed .executing 3 =
      (sampleClosed, some .TaskClosed) ∧
    advanceTask sampleTask .executing 3 =
      (sampleTask, some .InvalidTransition) ∧
    (advanceTask sampleTask .assigned 3).1.status = .assigned :=
  ⟨(C1_task_state_machine sampleClosed .executing 3).1 rfl,
   (C1_task_state_machine sampleTask .executing 3).2.1 rfl rfl,
   ((C1_task_state_machine sampleTask .assigned 3).2.2 rfl).2.1⟩

/-- C6: `closed_at` is non-null exactly on terminal tasks: `createTask` yields
status `created` with null `closed_at`; a successful `advance` preserves the
invariant (setting `closed_at` exactly when the target is terminal);
`closeTask` sets status `closed` and `closed_at = now` in the same transition,
and `failTask` sets status `failed` and `closed_at = now` in the same
transition. -/
theorem C6_closed_at_iff_terminal :
    (∀ id sid title ttype inp now,
      (createTask id sid title ttype inp now).status = .created ∧
      (createTask id sid title ttype inp now).closed_at = none) ∧
    (∀ t next now t', closedAtInv t → advance t next now = .ok t' →
      closedAtInv t') ∧
    (∀ t out tok mdl now t', closeTask t out tok mdl now = .ok t' →
      t'.status = .closed ∧ t'.closed_at = some now) ∧
    (∀ t msg now t', failTask t msg now = .ok t' →
      t'.status = .failed ∧ t'.closed_at = some now) := by
  refine ⟨fun _ _ _ _ _ _ => ⟨rfl, rfl⟩, ?_, ?_, ?_⟩
  · intro t next now t' hinv hok
    unfold advance at hok
    by_cases hterm : t.status.isTerminal = true
    · simp [hterm] at hok
    · by_cases hv : validTransition t.status next = true
      · simp [hterm, hv] at hok
        unfold closedAtInv at hinv ⊢
        by_cases hnt : next.isTerminal = true
        · simp [← hok, hnt]
        · simp [← hok, hnt, hinv, hterm]
      · simp [hterm, hv] at hok
  · intro t out tok mdl now t' hok
    unfold closeTask advance at hok
    by_cases hterm : t.status.isTerminal = true
    · simp [hterm, Except.map] at hok
    · by_cases hv : validTransition t.status .closed = true
      · simp [hterm, hv, Except.map] at hok
        simp [← hok, TaskStatus.isTerminal]
      · simp [hterm, hv, Except.map] at hok
  · intro t msg now t' hok
    unfold failTask advance at hok
    by_cases hterm : t.status.isTerminal = true
    · simp [hterm, Except.map] at hok
    · by_cases hv : validTransition t.status .failed = true
      · simp [hterm, hv, Except.map] at hok
        simp [← hok, TaskStatus.isTerminal]
      · simp [hterm, hv, Except.map] at hok

/-- C6 witness: failing an assigned task and closing a verifying task both
set `closed_at` together with the terminal status, and a fresh task has a
null `closed_at`. -/
theorem C6_closed_at_iff_terminal_witness :
    (createTask 1 none "demo" "general" "payload" 0).closed_at = none ∧
    closedAtInv ({ sampleTask with status := .assigned, updated_at := 3 }) ∧
    ({ sampleAssigned with
       status := .failed, updated_at := 5, closed_at := some 5,
       error_msg := some "boom" } : Task).closed_at = some 5 ∧
    ({ sampleVerifying with
       status := .closed, updated_at := 6, closed_at := some 6,
       output_data := "out", tokens_used := 3,
       model_used := some "openai" } : Task).closed_at = some 6 := by
  refine ⟨(C6_closed_at_iff_terminal.1 1 none "demo" "general" "payload" 0).2,
    C6_closed_at_iff_terminal.2.1 sampleTask .assigned 3 _ ?_ ?_,
    (C6_closed_at_iff_terminal.2.2.2 sampleAssigned "boom" 5 _ ?_).2,
    (C6_closed_at_iff_terminal.2.2.1 sampleVerifying "out" 3 "openai" 6 _
      ?_).2⟩
  · rfl
  · rfl
  · rfl
  · rfl

/-- C5: the Governor is deterministic and stateless: with the same
configuration (mode, thresholds, rules), action and context, the decision is
independent of the accumulated audit log, and an identical second call made
after the first one appended its audit entry returns the same decision. -/
theorem C5_governor_deterministic (cfg : GovConfig) (action context : String)
    (log1 log2 : List AuditLogEntry) :
    (evaluateWithLog cfg log1 action context).1 =
      (evaluateWithLog cfg log2 action context).1 ∧
    (evaluateWithLog cfg (evaluateWithLog cfg log1 action context).2
        action context).1 =
      (evaluateWithLog cfg log1 action context).1 ∧
    (evaluateWithLog cfg log1 action context).1.risk_score =
      riskScore cfg action context :=
  ⟨rfl, rfl, rfl⟩

/-- In a non-off mode, a score at or above the block threshold yields
outcome BLOCKED. -/
theorem evaluate_blocked (cfg : GovConfig) (action context : String)
    (hmode : cfg.mode ≠ .off)
    (hscore : cfg.risk_block_threshold ≤ riskScore cfg action context) :
    (evaluate cfg action context).outcome = .BLOCKED := by
  unfold evaluate
  cases hm : cfg.mode <;> simp_all [hscore]

/-- C2: in `hard_block` mode, a cycle whose computed risk score reaches the
block threshold is BLOCKED: the result has `success = false` and
`governor_approved = false`, the task ends in status `failed` with the reason
recorded in `error_msg`, and the collaborator trace contains neither a Model
Router call nor a Skill Manager call — the only collaborator invoked is the
Governor. -/
theorem C2_hard_block_no_invocation (env : Env) (cfg : GovConfig)
    (inp : LoopInput) (tid now : Nat) (skill : String)
    (hmode : cfg.mode = .hard_block)
    (hres : env.resolveSkill inp.skill_hint inp.command = some skill)
    (hscore : cfg.risk_block_threshold ≤
      riskScore cfg (mkAction skill inp) inp.context) :
    (evaluate cfg (mkAction skill inp) inp.context).outcome = .BLOCKED ∧
    (run env cfg inp tid now).1.success = false ∧
    (run env cfg inp tid now).1.governor_approved = false ∧
    (run env cfg inp tid now).2.1.status = .failed ∧
    (run env cfg inp tid now).2.1.error_msg =
      some ("governor blocked: " ++
        (evaluate cfg (mkAction skill inp) inp.context).reason) ∧
    (run env cfg inp tid now).2.2 = [.governorCall] ∧
    Event.routerCall ∉ (run env cfg inp tid now).2.2 ∧
    Event.skillCall ∉ (run env cfg inp tid now).2.2 := by
  have hout : (evaluate cfg (mkAction skill inp) inp.context).outcome =
      .BLOCKED :=
    evaluate_blocked cfg (mkAction skill inp) inp.context
      (by simp [hmode]) hscore
  have hrun : run env cfg inp tid now =
      ({ success := false, task_id := some tid, skill_used := some skill
         model_used := none, output := none, tokens_used := 0, elapsed_s := 0
         governor_approved := false
         error := some ("governor blocked: " ++
           (evaluate cfg (mkAction skill inp) inp.context).reason)
         memory_hits := [] },
       failTaskTotal
         { advanceTotal
             (createTask tid inp.session_id inp.command inp.task_type
               inp.context now) .assigned now with skill_name := some skill }
         ("governor blocked: " ++
           (evaluate cfg (mkAction skill inp) inp.context).reason) now,
       [.governorCall]) := by
    unfold run
    rw [hres]
    simp [hmode, hout]
  rw [hrun]
  refine ⟨hout, rfl, rfl, ?_, ?_, rfl, by simp, by simp⟩
  · simp [failTaskTotal, failTask, advanceTotal, advanceTask, advance,
      createTask, validTransition, TaskStatus.isTerminal, Except.map]
  · simp [failTaskTotal, failTask, advanceTotal, advanceTask, advance,
      createTask, validTransition, TaskStatus.isTerminal, Except.map]

/-- Sample governor configuration: hard_block with the default thresholds
from `app/config.py` and one high-risk rule. -/
def govCfgSample : GovConfig := ⟨.hard_block, 90, 70, [⟨"rm -rf", 95⟩]⟩

/-- Sample environment whose collaborators all succeed. -/
def envSample : Env :=
  { resolveSkill := fun _ _ => some "shell"
    skillNeedsModel := fun _ => true
    dispatchCall := fun _ => .ok ⟨"out", "openai", 42⟩
    invokeSkill := fun _ _ => .ok "done" }

/-- Sample loop input whose command triggers the high-risk rule. -/
def inpRisky : LoopInput :=
  ⟨"rm -rf /tmp", "user", none, none, "ctx", some "shell", "general",
   "medium"⟩

/-- C2 witness: on the sample risky command in hard_block mode the risk score
is 95 ≥ 90, the cycle is blocked, the task fails, and only the Governor is
invoked. -/
theorem C2_hard_block_no_invocation_witness :
    (run envSample govCfgSample inpRisky 1 10).1.success = false ∧
    (run envSample govCfgSample inpRisky 1 10).2.1.status = .failed ∧
    Event.routerCall ∉ (run envSample govCfgSample inpRisky 1 10).2.2 ∧
    Event.skillCall ∉ (run envSample govCfgSample inpRisky 1 10).2.2 := by
  have h := C2_hard_block_no_invocation envSample govCfgSample inpRisky 1 10
    "shell" rfl rfl (by decide)
  exact ⟨h.2.1, h.2.2.2.1, h.2.2.2.2.2.2.1, h.2.2.2.2.2.2.2⟩

/-- C4: `dispatch` attempts the ranked providers one at a time, in order.  If
every configured provider fails, it attempts each of the N providers exactly
once (the attempted list is the whole ranked list) and returns
`NoProviderAvailable`; if some provider succeeds, the attempted list is
exactly the failing prefix followed by the first succeeding provider, whose
result is returned. -/
theorem C4_dispatch_ordered_fallback
    (attempt : Provider → Except String ModelResult) (ps : List Provider) :
    ((∀ p ∈ ps, ∃ e, attempt p = .error e) →
      dispatch attempt ps = (ps, .error .NoProviderAvailable)) ∧
    (∀ pre p rest r, ps = pre ++ p :: rest →
      (∀ q ∈ pre, ∃ e, attempt q = .error e) → attempt p = .ok r →
      dispatch attempt ps = (pre ++ [p], .ok r)) := by
  constructor
  · intro hall
    induction ps with
    | nil => rfl
    | cons p rest ih =>
      obtain ⟨e, he⟩ := hall p (by simp)
      have hrest := ih fun q hq => hall q (by simp [hq])
      simp [dispatch, he, hrest]
  · intro pre p rest r hps hpre hp
    subst hps
    induction pre with
    | nil => simp [dispatch, hp]
    | cons q pre ih =>
      obtain ⟨e, he⟩ := hpre q (by simp)
      have htail := ih fun x hx => hpre x (by simp [hx])
      simp [dispatch, he, htail]

/-- A provider set where only provider "b" is reachable. -/
def attemptOnlyB : Provider → Except String ModelResult := fun p =>
  if p.name == "b" then .ok ⟨"o", "b", 1⟩ else .error "connection refused"

/-- A provider set where every provider is down. -/
def attemptAllFail : Provider → Except String ModelResult :=
  fun _ => .error "connection refused"

/-- C4 witness: with providers [a, b, c] where only b succeeds, dispatch
attempts a then b (c is never attempted) and returns b's result; with both
of [a, b] failing, dispatch attempts both and raises NoProviderAvailable. -/
theorem C4_dispatch_ordered_fallback_witness :
    dispatch attemptOnlyB [⟨"a"⟩, ⟨"b"⟩, ⟨"c"⟩] =
      ([⟨"a"⟩, ⟨"b"⟩], .ok ⟨"o", "b", 1⟩) ∧
    dispatch attemptAllFail [⟨"a"⟩, ⟨"b"⟩] =
      ([⟨"a"⟩, ⟨"b"⟩], .error .NoProviderAvailable) := by
  constructor
  · exact (C4_dispatch_ordered_fallback attemptOnlyB
      [⟨"a"⟩, ⟨"b"⟩, ⟨"c"⟩]).2 [⟨"a"⟩] ⟨"b"⟩ [⟨"c"⟩] ⟨"o", "b", 1⟩ rfl
      (by intro q hq; simp at hq; subst hq
          exact ⟨"connection refused", rfl⟩) rfl
  · exact (C4_dispatch_ordered_fallback attemptAllFail [⟨"a"⟩, ⟨"b"⟩]).1
      fun p _ => ⟨"connection refused", rfl⟩

/-- A loop behavior that lets a `SkillNotFound` exception escape `run`. -/
def loopRaising : LoopInput → Except AppExc CycleResult :=
  fun _ => .error (.skillNotFound "skill not found: does-not-exist")

/-- Sample request naming an unregistered skill. -/
def sampleReq : LoopInput :=
  ⟨"do it", "user", none, none, "ctx", some "does-not-exist", "general",
   "medium"⟩

/-- An environment in which no skill resolves. -/
def envNoSkill : Env := { envSample with resolveSkill := fun _ _ => none }

/-- The spec-modelled loop behavior: `run` handles the unresolved skill
internally and returns a result rather than raising. -/
def loopModelled : LoopInput → Except AppExc CycleResult :=
  fun i => .ok (run envNoSkill govCfgSample i 1 0).1

/-- A skill manager with no registered skills. -/
def invokeMissing : String → String → Except AppExc String :=
  fun _ _ => .error (.skillNotFound "skill not found: does-not-exist")

/-- C3 counterexample: at POST /v1/agent/run a `SkillNotFound` never surfaces
as a 404-class response.  If the loop raises it, the route's blanket
`except Exception` maps it to a 500; if the loop handles it internally (the
spec-modelled behavior), the route returns 200 with `success = false`.
Either way the claim's 404-class surfacing fails for this endpoint. -/
theorem C3_skill_not_found_counterexample :
    agent_run loopRaising sampleReq =
      .error (500, "skill not found: does-not-exist") ∧
    agent_run loopModelled sampleReq =
      .ok { success := false, task_id := some 1, skill_used := none
            model_used := none, output := none, tokens_used := 0
            elapsed_s := 0, governor_approved := false
            error := some ("SkillNotFound: do it"), memory_hits := [] } :=
  ⟨rfl, rfl⟩

/-- C3 amended: an unresolved skill surfaces as a 404-class error at
POST /v1/skills/invoke (any other invocation error as 500); at
POST /v1/agent/run an exception escaping the loop — `SkillNotFound`
included — surfaces as 500, not 404; and a cycle whose skill hint does not
resolve leaves its Task in the terminal status `failed` with
`success = false`, never in a non-terminal status. -/
theorem C3_skill_not_found_amended
    (invoke : String → String → Except AppExc String)
    (loop : LoopInput → Except AppExc CycleResult)
    (env : Env) (cfg : GovConfig) (inp : LoopInput)
    (name inputs m : String) (e : AppExc) (tid now : Nat)
    (hsnf : invoke name inputs = .error (.skillNotFound m))
    (hloop : loop inp = .error e)
    (hres : env.resolveSkill inp.skill_hint inp.command = none) :
    invoke_skill invoke name inputs = .error (404, m) ∧
    agent_run loop inp = .error (500, strExc e) ∧
    (run env cfg inp tid now).1.success = false ∧
    (run env cfg inp tid now).2.1.status = .failed ∧
    (run env cfg inp tid now).2.1.status.isTerminal = true := by
  have hrun : run env cfg inp tid now =
      ({ success := false, task_id := some tid, skill_used := none
         model_used := none, output := none, tokens_used := 0, elapsed_s := 0
         governor_approved := false
         error := some ("SkillNotFound: " ++ inp.command), memory_hits := [] },
       failTaskTotal
         (createTask tid inp.session_id inp.command inp.task_type
           inp.context now)
         ("SkillNotFound: " ++ inp.command) now, []) := by
    unfold run
    rw [hres]
  refine ⟨?_, ?_, ?_, ?_, ?_⟩
  · simp [invoke_skill, hsnf]
  · simp [agent_run, hloop]
  · rw [hrun]
  · rw [hrun]
    simp [failTaskTotal, failTask, advance, createTask, Except.map,
      TaskStatus.isTerminal, validTransition]
  · rw [hrun]
    simp [failTaskTotal, failTask, advance, createTask, Except.map,
      TaskStatus.isTerminal, validTransition]

/-- C3 witness for the amended claim, at the sample unregistered skill. -/
theorem C3_skill_not_found_amended_witness :
    invoke_skill invokeMissing "does-not-exist" "x" =
      .error (404, "skill not found: does-not-exist") ∧
    agent_run loopRaising sampleReq =
      .error (500, "skill not found: does-not-exist") ∧
    (run envNoSkill govCfgSample sampleReq 1 0).2.1.status = .failed := by
  have h := C3_skill_not_found_amended invokeMissing loopRaising envNoSkill
    govCfgSample sampleReq "does-not-exist" "x"
    "skill not found: does-not-exist"
    (.skillNotFound "skill not found: does-not-exist") 1 0 rfl rfl rfl
  exact ⟨h.1, h.2.1, h.2.2.2.1⟩

/-- C7: GET /v1/agent/tasks/:id responds 404 exactly when the id resolves to
no stored task, responds 200 with the stored record otherwise, and a 404 is
the only error this handler produces. -/
theorem C7_get_task_lookup (store : Nat → Option Task) (task_id : Nat) :
    (store task_id = none ↔
      get_task store task_id = .error (404, "Task not found")) ∧
    (∀ t, store task_id = some t → get_task store task_id = .ok t) ∧
    (∀ s d, get_task store task_id = .error (s, d) →
      s = 404 ∧ store task_id = none) := by
  cases h : store task_id <;> simp [get_task, h]

/-- A task store holding just the sample task under id 1. -/
def taskStoreSample : Nat → Option Task :=
  fun n => if n = 1 then some sampleTask else none

/-- C7 witness: the stored id returns the record, a missing id returns the
404 error. -/
theorem C7_get_task_lookup_witness :
    get_task taskStoreSample 1 = .ok sampleTask ∧
    get_task taskStoreSample 2 = .error (404, "Task not found") ∧
    taskStoreSample 2 = none :=
  ⟨(C7_get_task_lookup taskStoreSample 1).2.1 sampleTask rfl,
   (C7_get_task_lookup taskStoreSample 2).1.mp rfl,
   ((C7_get_task_lookup taskStoreSample 2).2.2 404 "Task not found" rfl).2⟩

/-- Headers carrying an x-api-key header that is present but empty together
with a valid Bearer credential. -/
def hdrsEmptyKey : Headers := ⟨some "", some "Bearer secret"⟩

/-- C8 counterexample: the claim's extraction rule takes the x-api-key header
whenever it is *present*, so for these headers it extracts the empty string,
which matches neither `api_key = "secret"` nor `admin_token = "admin"` — the
claim predicts a 401.  The middleware, via Python's falsy `or`, falls through
the empty x-api-key value to the authorization header, extracts "secret" and
accepts the request. -/
theorem C8_auth_token_counterexample :
    authAllows "secret" "admin" "/v1/models" hdrsEmptyKey = true ∧
    claimToken hdrsEmptyKey ≠ "secret" ∧
    claimToken hdrsEmptyKey ≠ "admin" := by
  refine ⟨?_, ?_, ?_⟩ <;> decide

/-- C8 amended: with a non-empty `api_key` and a non-exempt path, the
middleware rejects with 401 exactly when the extracted token (the x-api-key
header if present *and non-empty*, otherwise the authorization header with a
leading "Bearer " removed, otherwise the empty string) equals neither
`api_key` nor `admin_token`; and with the default empty `admin_token`, a
request carrying no credential headers is accepted, because the empty
extracted token equals the empty admin token. -/
theorem C8_auth_token_amended (api_key admin_token path : String)
    (h : Headers) (hk : api_key ≠ "")
    (hp : exemptPaths.contains path = false) :
    (authAllows api_key admin_token path h = false ↔
      (extractToken h ≠ api_key ∧ extractToken h ≠ admin_token)) ∧
    authAllows api_key "" path { x_api_key := none, authorization := none } =
      true := by
  have hp' : path ∉ exemptPaths := by simpa using hp
  constructor
  · simp [authAllows, hk, hp, hp']
  · simp [authAllows, hk, hp, extractToken, stripLeading, startsWithList]

/-- C8 witness for the amended claim: a wrong Bearer token is rejected, and
with an empty admin token a credential-less request is accepted. -/
theorem C8_auth_token_amended_witness :
    authAllows "secret" "admin" "/v1/models" ⟨none, some "Bearer wrong"⟩ =
      false ∧
    authAllows "secret" "" "/v1/models" ⟨none, none⟩ = true := by
  constructor
  · exact (C8_auth_token_amended "secret" "admin" "/v1/models"
      ⟨none, some "Bearer wrong"⟩ (by decide) (by decide)).1.mpr
      ⟨by decide, by decide⟩
  · exact (C8_auth_token_amended "secret" "x" "/v1/models" ⟨none, none⟩
      (by decide) (by decide)).2

/-- C9: a POST /v1/cron request with neither `cron_expr` nor `interval_s`
(or with both falsy) gets a 500 response, not a 400 — the handler's own
`HTTPException(400)` is raised inside its try block and the blanket
`except Exception` re-raises it as a 500; and when `cron_expr` is truthy it
takes precedence and `add_cron` (not `add_interval`) is called. -/
theorem C9_add_cron_status (req : CronAddReq) :
    (truthyStr req.cron_expr = false → truthyInt req.interval_s = false →
      add_cron_route req =
        .error (500, "400: cron_expr or interval_s required")) ∧
    (truthyStr req.cron_expr = true → add_cron_route req = .ok .addCron) := by
  constructor
  · intro hc hi
    simp only [add_cron_route, add_cron_body, hc, hi, strExc]
    rfl
  · intro hc
    simp [add_cron_route, add_cron_body, hc]

/-- Cron request with both schedule fields absent. -/
def reqNeither : CronAddReq := ⟨"job", "skill", none, none, "payload", true⟩

/-- Cron request with both schedule fields provided. -/
def reqBoth : CronAddReq :=
  ⟨"job", "skill", some "0 5 * * *", some 5, "payload", true⟩

/-- C9 witness: both-absent yields the 500, both-present calls `add_cron`. -/
theorem C9_add_cron_status_witness :
    add_cron_route reqNeither =
      .error (500, "400: cron_expr or interval_s required") ∧
    add_cron_route reqBoth = .ok .addCron :=
  ⟨(C9_add_cron_status reqNeither).1 rfl rfl,
   (C9_add_cron_status reqBoth).2 rfl⟩

/-- C10: DELETE /v1/goals/:id responds with the abandoned status and the goal
id, removes no goal record (the stored ids are unchanged), leaves every other
goal untouched, and keeps the targeted goal retrievable with all fields
unchanged except its status, which becomes `abandoned`. -/
theorem C10_delete_goal_frame (gs : List Goal) (gid : Nat) :
    (delete_goal gs gid).2 = ("abandoned", gid) ∧
    (list_all (delete_goal gs gid).1).map Goal.id =
      (list_all gs).map Goal.id ∧
    (∀ g ∈ gs, g.id ≠ gid → g ∈ list_all (delete_goal gs gid).1) ∧
    (∀ g ∈ gs, g.id = gid →
      { g with status := .abandoned } ∈ list_all (delete_goal gs gid).1) := by
  refine ⟨rfl, ?_, ?_, ?_⟩
  · simp only [delete_goal, abandon, list_all, List.map_map]
    apply List.map_congr_left
    intro g _
    by_cases h : g.id = gid <;> simp [h]
  · intro g hg hne
    have hfix : (fun g => if g.id = gid
        then { g with status := GoalStatus.abandoned } else g) g = g := by
      simp [hne]
    have := List.mem_map_of_mem (fun g => if g.id = gid
      then { g with status := GoalStatus.abandoned } else g) hg
    rw [hfix] at this
    simpa [delete_goal, abandon, list_all] using this
  · intro g hg heq
    have hfix : (fun g => if g.id = gid
        then { g with status := GoalStatus.abandoned } else g) g =
        { g with status := GoalStatus.abandoned } := by
      simp [heq]
    have := List.mem_map_of_mem (fun g => if g.id = gid
      then { g with status := GoalStatus.abandoned } else g) hg
    rw [hfix] at this
    simpa [delete_goal, abandon, list_all] using this

/-- Sample goal with id 1. -/
def goalA : Goal := ⟨1, "ship", "", .active, 0, 5, "ctx"⟩

/-- Sample goal with id 2. -/
def goalB : Goal := ⟨2, "learn", "", .paused, 0, 3, "ctx"⟩

/-- C10 witness: deleting goal 1 from [goalA, goalB] responds abandoned/1,
keeps goalB unchanged and keeps goalA retrievable with only its status
changed. -/
theorem C10_delete_goal_frame_witness :
    (delete_goal [goalA, goalB] 1).2 = ("abandoned", 1) ∧
    goalB ∈ list_all (delete_goal [goalA, goalB] 1).1 ∧
    ({ goalA with status := .abandoned } : Goal) ∈
      list_all (delete_goal [goalA, goalB] 1).1 := by
  have h := C10_delete_goal_frame [goalA, goalB] 1
  exact ⟨h.1, h.2.2.1 goalB (by simp) (by decide),
    h.2.2.2 goalA (by simp) rfl⟩

end Archeli
